import Mathlib

/-!
Verification of the CartographyStuff repository (ParseSHEDSLake.py and
ParseSHEDSriv.py): a shallow embedding of the line classifiers, the
bounds validator and predicates, the attribute parsers and the two
segment-filter state machines, together with theorems settling the
specification claims.

Modelling conventions:
* an input line is a `List Char` (one physical text line, normally ending
  in a newline character, exactly as produced by Python file iteration);
* Python floats are modelled as rationals (the sources only compare them,
  never do arithmetic on them);
* Python string methods are modelled on ASCII text (`isdigit`, `isspace`,
  `lower`, `strip` agree with the Python behaviour on ASCII input);
* printing and file I/O are side effects: prints relevant to the claims
  are modelled as counters, file-existence results are passed as booleans.
-/

/-- One physical input line, as the Python `for line in InFile` yields it. -/
abbrev Line := List Char

/-- Convert a string literal to a `Line`. -/
def tl (s : String) : Line := s.data

/-- Python `line[i].isdigit()` guarded by existence: true iff the line has an
`i`-th character and it is a decimal digit.  (Python raises `IndexError` on a
too-short line; all lines yielded by file iteration that reach these tests in
the sources have the tested index, since they end in a newline.) -/
def digitAt (l : Line) (i : Nat) : Bool :=
  match l.get? i with
  | some c => c.isDigit
  | none => false

/-- Python `line[0] == c` guarded by existence. -/
def headIs (l : Line) (c : Char) : Bool :=
  match l.head? with
  | some c0 => c0 = c
  | none => false

/-- Python `line.isspace()`: non-empty and all whitespace. -/
def pyIsSpace (l : Line) : Bool :=
  !l.isEmpty && l.all (fun c => c.isWhitespace)

/-- Python `s.strip()`: remove leading and trailing whitespace. -/
def pyStrip (l : Line) : Line :=
  ((l.dropWhile (fun c => c.isWhitespace)).reverse.dropWhile
    (fun c => c.isWhitespace)).reverse

/-- Python `s.isdigit()` (ASCII): non-empty and all decimal digits. -/
def pyIsDigitStr (l : Line) : Bool :=
  !l.isEmpty && l.all (fun c => c.isDigit)

/-- Python `s.lower()` (ASCII). -/
def pyLower (l : Line) : Line := l.map (fun c => c.toLower)

/-- Numeric value of an all-digits string, as Python `int(s)` computes it. -/
def digitsVal (l : Line) : Nat :=
  l.foldl (fun n c => 10 * n + (c.toNat - 48)) 0

/-- The fixed boundary line `">\n"` written by both parsers
(`OutFile.write(">\n")`). -/
def gtLine : Line := ['>', '\n']

/-- The fixed pen header `"> -W0.25p,red \n"` returned unconditionally by
`SHEDSrivParser.CreateSegmentHeader` (its first statement is
`return "> -W0.25p,red \n"`; the code after it is unreachable). -/
def penLine : Line := tl "> -W0.25p,red \n"

/-- The 4-character lake-header marker `"# @D"` tested by
`line.startswith('# @D')` in `ParseLAKES`. -/
def dMark : Line := ['#', ' ', '@', 'D']

/-- The 4-character island-header marker `"# @H"` tested by
`line.startswith('# @H')` in `ParseLAKES`. -/
def hMark : Line := ['#', ' ', '@', 'H']

/-! ## Bounds validator (`LakesParser.BoundsDatelineCheck`, lines 960-1028) -/

/-- The `Directions` string attached to each `BoundsInconsistentError` raised
by `BoundsDatelineCheck`, as an error-kind enumeration. -/
inductive BoundsErrorKind where
  | SN | S | N | WE | W | E
deriving DecidableEq, Repr

/-- `LakesParser.BoundsDatelineCheck([W, E, S, N])`: validates the bounds in
source order and returns the `BoundsIncDateline` flag (true iff not `W < E`).
Each `raise BoundsInconsistentError(kind, ...)` becomes `Except.error kind`. -/
def BoundsDatelineCheck (W E S N : ℚ) : Except BoundsErrorKind Bool :=
  if ¬ (S < N) then .error .SN
  else if ¬ (S ≥ -90 ∧ S ≤ 90) then .error .S
  else if ¬ (N ≥ -90 ∧ N ≤ 90) then .error .N
  else if ¬ (W ≠ E) then .error .WE
  else if ¬ (W ≥ -180 ∧ W ≤ 180 ∧ W ≠ E) then .error .W
  else if ¬ (E ≥ -180 ∧ E ≤ 180 ∧ W ≠ E) then .error .E
  else .ok (decide (¬ (W < E)))

/-- Boolean success test for an `Except` result. -/
def exceptOk {ε α : Type} (e : Except ε α) : Bool :=
  match e with
  | .ok _ => true
  | .error _ => false

/-! ## Bounds predicates (`SHEDSrivParser.PointWithinBoundry`, lines 382-417,
and `LakesParser.LakeMatchesBoundsSimple`, lines 497-535) -/

/-- A validated bounds quadruple with its dateline flag, i.e. the 5-element
list `[W, E, S, N, BoundsIncDateline]` both sources build. -/
structure GeoBounds where
  west : ℚ
  east : ℚ
  south : ℚ
  north : ℚ
  crossesDateline : Bool
deriving DecidableEq, Repr

/-- `SHEDSrivParser.PointWithinBoundry(Lat, Lon, Bounds)` (the length-5 list
check always succeeds for a `GeoBounds`). -/
def PointWithinBoundry (lat lon : ℚ) (b : GeoBounds) : Bool :=
  if lat ≤ b.north ∧ lat ≥ b.south then
    if !b.crossesDateline then
      if lon ≤ b.east ∧ lon ≥ b.west then true else false
    else
      if lon ≥ b.west ∧ lon ≤ 180 then true
      else if lon ≥ -180 ∧ lon ≤ b.east then true
      else false
  else false

/-- `LakesParser.LakeMatchesBoundsSimple`, with the pour-point longitude and
latitude read from `self.LakeAtributesList` passed as arguments and
`self.SimpleBounds` as a `GeoBounds`. -/
def LakeMatchesBoundsSimple (pourLong pourLat : ℚ) (b : GeoBounds) : Bool :=
  if pourLat ≤ b.north ∧ pourLat ≥ b.south then
    if !b.crossesDateline then
      if pourLong ≤ b.east ∧ pourLong ≥ b.west then true else false
    else
      if pourLong ≥ b.west ∧ pourLong ≤ 180 then true
      else if pourLong ≥ -180 ∧ pourLong ≤ b.east then true
      else false
  else false

/-! ## Upstream-cell count parsing (`SHEDSrivParser.ParseUpstreamCells`,
lines 323-355) -/

/-- `SHEDSrivParser.ParseUpstreamCells(line)`: `i = line.find("|")` (the FIRST
pipe, or failure when there is none), then the text after it is stripped and
must be all digits; `raise UpstreamCountError` becomes `none`.  The final
`int()` conversion cannot fail on an ASCII digit string. -/
def ParseUpstreamCells (line : Line) : Option Nat :=
  match line.dropWhile (fun c => c ≠ '|') with
  | [] => none
  | _ :: tail =>
    let s := pyStrip tail
    if pyIsDigitStr s then some (digitsVal s) else none

/-- Modelled from the spec: the spec's reading of the upstream-count rule,
"the text after the LAST `|` must be all digits".  Kept for comparison with
`ParseUpstreamCells`, which uses the first `|`. -/
def upstreamCellsSpecLastPipe (line : Line) : Option Nat :=
  if '|' ∈ line then
    let tail := (line.reverse.takeWhile (fun c => c ≠ '|')).reverse
    let s := pyStrip tail
    if pyIsDigitStr s then some (digitsVal s) else none
  else none

/-! ## Name/country substring predicates (`LakesParser.LakeMatchesName`,
lines 568-572, `LakesParser.LakeMatchesCountry`, lines 578-582).  The
`__init__` loop stores every string input lowercased (`self.X = X.lower()`),
so the stored needle is `pyLower` of the configured one. -/

/-- Python substring containment `needle in hay` on strings. -/
def pySubstring (needle hay : Line) : Bool :=
  decide (List.IsInfix needle hay)

/-- `LakesParser.LakeMatchesName`: `self.LakeName in
self.LakeAtributesList[self.Lake_name_SearchIndex].lower()`. -/
def LakeMatchesName (lakeNameLowered : Line) (nameField : Line) : Bool :=
  pySubstring lakeNameLowered (pyLower nameField)

/-- `LakesParser.LakeMatchesCountry`: `self.CountryName in
self.LakeAtributesList[self.Country_SearchIndex].lower()`. -/
def LakeMatchesCountry (countryNameLowered : Line) (countryField : Line) : Bool :=
  pySubstring countryNameLowered (pyLower countryField)

/-! ## Configuration validation (`LakesParser.__init__`, lines 242-457, and
`SHEDSrivParser.__init__`, lines 121-246).  File-existence tests are I/O and
enter the model as boolean parameters; the Python type checks are static in
the embedding. -/

/-- Error classes raised by `LakesParser.__init__`
(`InitInputError` / `BoundsInconsistentError` with their payloads). -/
inductive LakesInitError where
  | noInputFile
  | outputExists
  | areaMinMax
  | boundsInconsistent (k : BoundsErrorKind)
  | noBoundsFile
deriving DecidableEq, Repr

/-- The configuration produced by a successful `LakesParser.__init__`,
restricted to the fields the filtering claims read. -/
structure LakesConfigOut where
  testBounds : Bool
  simpleBounds : Option GeoBounds
  skipIslands : Bool
  areaMin : Option ℚ
  areaMax : Option ℚ
deriving DecidableEq, Repr

/-- Validation core of `LakesParser.__init__`, in source order: input-file
existence, output-file overwrite guard, the AreaMin/AreaMax range check
(lines 296-298), `BoundsDatelineCheck` on `SimpleBounds` (re-raised on
failure), and the bounds-file existence check.  `boundsFileExists?` is
`none` when no `BoundsFile` was configured. -/
def LakesParserInit (inputExists outputExists overwrite : Bool)
    (areaMin? areaMax? : Option ℚ) (simpleBounds? : Option (ℚ × ℚ × ℚ × ℚ))
    (boundsFileExists? : Option Bool) (skipIslands : Bool) :
    Except LakesInitError LakesConfigOut :=
  if !inputExists then .error .noInputFile
  else if outputExists && !overwrite then .error .outputExists
  else
    match areaMin?, areaMax? with
    | some mn, some mx =>
      if mx < mn then .error .areaMinMax
      else lakesInitBounds areaMin? areaMax? simpleBounds? boundsFileExists? skipIslands
    | _, _ => lakesInitBounds areaMin? areaMax? simpleBounds? boundsFileExists? skipIslands
where
  /-- Bounds part of the `__init__` validation (lines 300-332). -/
  lakesInitBounds (areaMin? areaMax? : Option ℚ)
      (simpleBounds? : Option (ℚ × ℚ × ℚ × ℚ)) (boundsFileExists? : Option Bool)
      (skipIslands : Bool) : Except LakesInitError LakesConfigOut :=
    match simpleBounds? with
    | some (W, E, S, N) =>
      match BoundsDatelineCheck W E S N with
      | .error k => .error (.boundsInconsistent k)
      | .ok cross =>
        match boundsFileExists? with
        | some false => .error .noBoundsFile
        | _ => .ok ⟨true, some ⟨W, E, S, N, cross⟩, skipIslands, areaMin?, areaMax?⟩
    | none =>
      match boundsFileExists? with
      | some false => .error .noBoundsFile
      | some true => .ok ⟨true, none, skipIslands, areaMin?, areaMax?⟩
      | none => .ok ⟨false, none, skipIslands, areaMin?, areaMax?⟩

/-- Error classes raised by `SHEDSrivParser.__init__` (`InitInputError` with
its `var` payload). -/
inductive RivInitError where
  | noInputFile
  | badExtension
  | outputExists
  | noBoundsFile
  | thresholdHigh
  | thresholdLow
  | simpleBoundsInvalid
deriving DecidableEq, Repr

/-- The configuration produced by a successful `SHEDSrivParser.__init__`,
restricted to the fields the claims read.  Note `MaxUpstream`/`MinUpstream`
always come from the thresholds, which the init requires to be present. -/
structure RivConfigOut where
  maxUpstream : Int
  minUpstream : Int
  simpleBounds : GeoBounds
  copyWithinBounds : Bool
  segmentHeaderIsSimple : Bool
deriving DecidableEq, Repr

/-- `SHEDSrivParser.ValidateSimpleBounds(BoundsList)` (lines 248-310): the
same six checks as `BoundsDatelineCheck` but returning a plain `False` on the
first failure (the bounds list has already been length-checked). -/
def ValidateSimpleBounds (W E S N : ℚ) : Bool :=
  if ¬ (S < N) then false
  else if ¬ (S ≥ -90 ∧ S ≤ 90) then false
  else if ¬ (N ≥ -90 ∧ N ≤ 90) then false
  else if ¬ (W ≠ E) then false
  else if ¬ (W ≥ -180 ∧ W ≤ 180 ∧ W ≠ E) then false
  else if ¬ (E ≥ -180 ∧ E ≤ 180 ∧ W ≠ E) then false
  else true

/-- Validation core of `SHEDSrivParser.__init__`, in source order: input-file
existence, extension support, output overwrite guard, bounds-file existence,
the two thresholds (which must be integers, i.e. present — `None` raises),
and `SimpleBounds` (which must be a valid 4-element list — the length check
is carried by the tuple type here).  There is no comparison between
`ThresholdLow` and `ThresholdHigh` anywhere in the source.  `penSimple` is
`(PenColour is None) and (PenWidth is None)`. -/
def SHEDSrivParserInit (inputExists extSupported outputExists overwrite : Bool)
    (boundsFileExists? : Option Bool) (thresholdHigh? thresholdLow? : Option Int)
    (simpleBounds? : Option (ℚ × ℚ × ℚ × ℚ)) (penSimple : Bool) :
    Except RivInitError RivConfigOut :=
  if !inputExists then .error .noInputFile
  else if !extSupported then .error .badExtension
  else if outputExists && !overwrite then .error .outputExists
  else if boundsFileExists? = some false then .error .noBoundsFile
  else
    match thresholdHigh? with
    | none => .error .thresholdHigh
    | some th =>
      match thresholdLow? with
      | none => .error .thresholdLow
      | some tlw =>
        match simpleBounds? with
        | none => .error .simpleBoundsInvalid
        | some (W, E, S, N) =>
          if ValidateSimpleBounds W E S N then
            .ok ⟨th, tlw, ⟨W, E, S, N, decide (¬ (W < E))⟩, true, penSimple⟩
          else .error .simpleBoundsInvalid

/-! ## Line classification.  Both main loops classify a line (outside the
header-lookahead and skip states) by one `if`/`elif` chain:
`ParseSHEDSLake.ParseLAKES` lines 868-940 and `SHEDSrivParser.ParseRIV`
lines 667-731. -/

/-- The roles a line can take in the main loops. -/
inductive LineClass where
  | blank
  | boundary
  | comment
  | data
  | unrecognized
deriving DecidableEq, Repr

/-- Line classification of the Lakes loop: `line.isspace()`, then
`line[0] == ">"`, then `line[0] == "#"`, then
`line[0].isdigit() or line[1].isdigit()`, else unrecognized. -/
def classifyLakeLine (l : Line) : LineClass :=
  if pyIsSpace l then .blank
  else if headIs l '>' then .boundary
  else if headIs l '#' then .comment
  else if digitAt l 0 || digitAt l 1 then .data
  else .unrecognized

/-- Line classification of the Rivers loop: identical except that a data line
is recognised by `line[1].isdigit()` alone. -/
def classifyRivLine (l : Line) : LineClass :=
  if pyIsSpace l then .blank
  else if headIs l '>' then .boundary
  else if headIs l '#' then .comment
  else if digitAt l 1 then .data
  else .unrecognized

/-- Modelled from the spec: the spec's classifier for lines that are not
blank, boundary or comment — data iff the first non-blank character is a
decimal digit, or the first character is a sign and the second a digit.
Kept for comparison with `classifyLakeLine` / `classifyRivLine`. -/
def specIsDataLine (l : Line) : Bool :=
  (match (l.dropWhile (fun c => c = ' ')).head? with
   | some c => c.isDigit
   | none => false)
  || ((headIs l '-' || headIs l '+') && digitAt l 1)

/-! ## The Lakes filter state machine (`LakesParser.ParseLAKES`,
lines 729-957).  The accept decision for a lake header line (lines 790-808:
`ExtractLakeHeader` followed by the bounds / numeric / string tester
pipeline, all pure functions of the header line and the configuration) is
abstracted as one boolean function `lakeMatches` of the header line; the
individual testers are modelled concretely above.  The write-only Python
locals (`LakeHeaderFound`, `IslandHeaderFound`, `SkipIslandsInThisLake`,
`AboutToCopyFirstLine`, `SavedCommentLine`) are omitted: nothing reads
them. -/

/-- Configuration of one `ParseLAKES` run. -/
structure LakeCfg where
  lakeMatches : Line → Bool
  skipIslands : Bool

/-- The loop state of `ParseLAKES`: its local counters, flags and the lines
written to `OutFile` so far. -/
structure LakeState where
  countLines : Nat
  countLakes : Nat
  countTotalIslands : Nat
  countIslandsThisLake : Nat
  mostIslandsInLake : Nat
  smallestLake : ℚ
  largestLake : ℚ
  countLakesCopied : Nat
  countTotalIslandsCopied : Nat
  smallestLakeCopied : ℚ
  largestLakeCopied : ℚ
  headerFound : Bool
  skipThisLake : Bool
  skipUntilHeader : Bool
  output : List Line
deriving DecidableEq, Repr

/-- The initial loop state of `ParseLAKES` (lines 744-764). -/
def lakeInit : LakeState :=
  { countLines := 0, countLakes := 0, countTotalIslands := 0,
    countIslandsThisLake := 0, mostIslandsInLake := 0,
    smallestLake := 24709000, largestLake := 0,
    countLakesCopied := 0, countTotalIslandsCopied := 0,
    smallestLakeCopied := 24709000, largestLakeCopied := 0,
    headerFound := false, skipThisLake := false, skipUntilHeader := false,
    output := [] }

/-- One iteration of the `ParseLAKES` loop body (lines 766-940), in source
order: the header-lookahead branch first, else the `isspace` / `>` /
`SkipUntilHeader` / `#` / digit chain. -/
def lakeStep (cfg : LakeCfg) (st : LakeState) (line : Line) : LakeState :=
  let st1 := { st with countLines := st.countLines + 1 }
  if st.headerFound then
    let st2 := { st1 with headerFound := false }
    if dMark.isPrefixOf line then
      let st3 := { st2 with
        countLakes := st2.countLakes + 1,
        mostIslandsInLake := max st2.mostIslandsInLake st2.countIslandsThisLake,
        countIslandsThisLake := 0 }
      if cfg.lakeMatches line then
        { st3 with skipThisLake := false, skipUntilHeader := false,
                   output := st3.output ++ [gtLine, line],
                   countLakesCopied := st3.countLakesCopied + 1 }
      else
        { st3 with skipThisLake := true, skipUntilHeader := true }
    else if hMark.isPrefixOf line then
      let st3 := { st2 with
        countTotalIslands := st2.countTotalIslands + 1,
        countIslandsThisLake := st2.countIslandsThisLake + 1 }
      if !st3.skipThisLake then
        if !cfg.skipIslands then
          { st3 with skipUntilHeader := false,
                     output := st3.output ++ [gtLine, line],
                     countTotalIslandsCopied := st3.countTotalIslandsCopied + 1 }
        else { st3 with skipUntilHeader := true }
      else { st3 with skipUntilHeader := true }
    else
      st2
  else if pyIsSpace line then st1
  else if headIs line '>' then { st1 with headerFound := true }
  else if st1.skipUntilHeader then st1
  else if headIs line '#' then { st1 with output := st1.output ++ [line] }
  else if digitAt line 0 || digitAt line 1 then
    { st1 with output := st1.output ++ [line] }
  else st1

/-- Run the `ParseLAKES` loop from a given state over a list of lines. -/
def parseLAKESFrom (cfg : LakeCfg) (st : LakeState) (lines : List Line) :
    LakeState :=
  lines.foldl (lakeStep cfg) st

/-- `LakesParser.ParseLAKES()` on an already-converted GMT text input: run the
loop from the initial state.  The final state's fields are exactly the
`self.FileStats` dictionary (lines 948-957) plus the written output. -/
def parseLAKES (cfg : LakeCfg) (lines : List Line) : LakeState :=
  parseLAKESFrom cfg lakeInit lines

/-! ## The Rivers filter state machine (`SHEDSrivParser.ParseRIV`,
lines 541-750).  The composite of the first-data-line coordinate parse
(`Lon,Lat = line.split(); float(...)`) with `CheckBounds` (lines 688-698
with 419-434) is abstracted as one boolean function `checkBoundsOnLine` of
the data line; `CheckBounds` delegates to `PointWithinBoundry`, modelled
concretely above.  Unlike the Lakes loop, the header-lookahead branch is a
separate `if` statement, so the same line falls through to the second
chain with the just-updated flags. -/

/-- Configuration of one `ParseRIV` run. -/
structure RivCfg where
  minUpstream : Int
  maxUpstream : Int
  runSilent : Bool
  copyWithinBounds : Bool
  segmentHeaderIsSimple : Bool
  checkBoundsOnLine : Line → Bool

/-- `SHEDSrivParser.UpstreamCellsWithinLimits(UpstreamCount)`
(lines 357-366). -/
def UpstreamCellsWithinLimits (cfg : RivCfg) (upstreamCount : Int) : Bool :=
  if upstreamCount < cfg.minUpstream then false
  else if upstreamCount > cfg.maxUpstream then false
  else true

/-- The loop state of `ParseRIV` (lines 618-628): counters, flags, the saved
attribute comment, the last parsed count, the printed parse-failure warnings
(the `print` calls at lines 643-645, counted), and the written output. -/
structure RivState where
  countLines : Nat
  countSegments : Nat
  countSegmentsCopied : Nat
  smallestUpstreamCells : Int
  largestUpstreamCells : Int
  upstreamCells : Int
  parseWarnings : Nat
  segmentHeaderFound : Bool
  skipThisSegment : Bool
  aboutToCopyFirstSegmentLine : Bool
  savedCommentLine : Line
  output : List Line
deriving DecidableEq, Repr

/-- The initial loop state of `ParseRIV`.  (`UpstreamCells` is an undefined
Python local until the first header is parsed and is never read before then;
it is initialised to 0 here.) -/
def rivInit : RivState :=
  { countLines := 0, countSegments := 0, countSegmentsCopied := 0,
    smallestUpstreamCells := 10000000000, largestUpstreamCells := 0,
    upstreamCells := 0, parseWarnings := 0,
    segmentHeaderFound := false, skipThisSegment := false,
    aboutToCopyFirstSegmentLine := false, savedCommentLine := [],
    output := [] }

/-- The segment header written for an accepted segment: `">\n"` when no pen
is configured, else `CreateSegmentHeader`'s constant pen line. -/
def rivHeaderLine (cfg : RivCfg) : Line :=
  if cfg.segmentHeaderIsSimple then gtLine else penLine

/-- The header-lookahead `if` of the `ParseRIV` loop body (lines 631-664,
including the `CountLines` increment): on the line after a `>`, count the
segment, parse the upstream count (on failure print a warning unless silent
and treat the count as 0), and decide whether to copy or skip the segment. -/
def rivHeaderPhase (cfg : RivCfg) (st : RivState) (line : Line) : RivState :=
  let st1 := { st with countLines := st.countLines + 1 }
  if st.segmentHeaderFound then
    let s0 := { st1 with segmentHeaderFound := false,
                         countSegments := st1.countSegments + 1 }
    let s1 :=
      match ParseUpstreamCells line with
      | none =>
        { s0 with upstreamCells := 0,
                  parseWarnings :=
                    s0.parseWarnings + (if cfg.runSilent then 0 else 1) }
      | some n =>
        { s0 with upstreamCells := (n : Int),
                  largestUpstreamCells := max s0.largestUpstreamCells (n : Int),
                  smallestUpstreamCells := min s0.smallestUpstreamCells (n : Int) }
    if UpstreamCellsWithinLimits cfg s1.upstreamCells then
      { s1 with countSegmentsCopied := s1.countSegmentsCopied + 1,
                skipThisSegment := false,
                aboutToCopyFirstSegmentLine := true }
    else
      { s1 with skipThisSegment := true }
  else st1

/-- The second statement of the `ParseRIV` loop body (lines 667-731): the
`isspace` / `>` / `SkipThisSegment` / `#` / first-data-line / data chain,
evaluated on the same line with the flags the header phase just updated. -/
def rivStepChain (cfg : RivCfg) (st2 : RivState) (line : Line) : RivState :=
  if pyIsSpace line then st2
  else if headIs line '>' then { st2 with segmentHeaderFound := true }
  else if st2.skipThisSegment then st2
  else if headIs line '#' then
    if st2.aboutToCopyFirstSegmentLine then { st2 with savedCommentLine := line }
    else { st2 with output := st2.output ++ [line] }
  else if digitAt line 1 && st2.aboutToCopyFirstSegmentLine then
    if cfg.copyWithinBounds then
      let s := { st2 with aboutToCopyFirstSegmentLine := false }
      if cfg.checkBoundsOnLine line then
        { s with output := s.output ++ [rivHeaderLine cfg, s.savedCommentLine, line] }
      else { s with skipThisSegment := true }
    else
      let s := { st2 with aboutToCopyFirstSegmentLine := false }
      { s with output := s.output ++ [rivHeaderLine cfg, s.savedCommentLine, line] }
  else if digitAt line 1 then { st2 with output := st2.output ++ [line] }
  else st2

/-- One iteration of the `ParseRIV` loop body (lines 630-731): the header
phase followed, on the same line, by the classification chain. -/
def rivStep (cfg : RivCfg) (st : RivState) (line : Line) : RivState :=
  rivStepChain cfg (rivHeaderPhase cfg st line) line

/-- Run the `ParseRIV` loop from a given state over a list of lines. -/
def parseRIVFrom (cfg : RivCfg) (st : RivState) (lines : List Line) : RivState :=
  lines.foldl (rivStep cfg) st

/-- `SHEDSrivParser.ParseRIV()` on an already-converted GMT text input. -/
def parseRIV (cfg : RivCfg) (lines : List Line) : RivState :=
  parseRIVFrom cfg rivInit lines

/-! ## Structured Lakes input.  A well-formed top-level lake feature in the
GMT file is a boundary line, a `# @D` header, content lines, and zero or
more islands (boundary line, `# @H` header, content lines).  These shapes
let the per-feature claims quantify over whole features. -/

/-- A content line of a feature body: not blank, not a boundary, and either a
comment or a data line (so the main loop neither re-arms the lookahead nor
warns on it). -/
def ContentLineB (l : Line) : Bool :=
  !pyIsSpace l && !headIs l '>' && (headIs l '#' || digitAt l 0 || digitAt l 1)

/-- A nested island sub-feature: its `# @H` header line and its body. -/
structure IslandBlock where
  hdr : Line
  body : List Line

/-- A top-level lake feature: its `# @D` header line, its body, and its
nested islands. -/
structure LakeBlock where
  hdr : Line
  body : List Line
  islands : List IslandBlock

/-- Well-formedness of an island block. -/
def WFIslandB (ib : IslandBlock) : Bool :=
  hMark.isPrefixOf ib.hdr && ib.body.all ContentLineB

/-- Well-formedness of a lake block. -/
def WFLakeB (lb : LakeBlock) : Bool :=
  dMark.isPrefixOf lb.hdr && lb.body.all ContentLineB
    && lb.islands.all WFIslandB

/-- The input lines of one island: `">\n"`, the `# @H` header, the body. -/
def renderIsland (ib : IslandBlock) : List Line :=
  gtLine :: ib.hdr :: ib.body

/-- The input lines of one lake: `">\n"`, the `# @D` header, the body, then
the islands. -/
def renderLake (lb : LakeBlock) : List Line :=
  gtLine :: lb.hdr :: (lb.body ++ lb.islands.flatMap renderIsland)

/-- The output `ParseLAKES` produces for one lake feature: everything
verbatim behind a fresh `">\n"` when the lake matches (islands only when
they are not globally skipped), nothing otherwise. -/
def lakeOutput (cfg : LakeCfg) (lb : LakeBlock) : List Line :=
  if cfg.lakeMatches lb.hdr then
    gtLine :: lb.hdr ::
      (lb.body ++ (if cfg.skipIslands then [] else lb.islands.flatMap renderIsland))
  else []

/-- Island counts folded the way the `ParseLAKES` loop folds
`CountIslandsThisLake` into `MostIslandsInLake`: the running maximum `m` and
the open tally `c` are combined only when the NEXT feature header arrives. -/
def foldMost (m c : Nat) : List Nat → Nat
  | [] => m
  | i :: rest => foldMost (max m c) i rest

/-- The open tally after a list of features: the last element, or the
incoming tally when the list is empty. -/
def lastTally (c : Nat) : List Nat → Nat
  | [] => c
  | i :: rest => lastTally i rest

/-! ## Concrete fixtures for witnesses and counterexamples. -/

/-- A Lakes configuration accepting every lake and keeping islands. -/
def cfgAllLakes : LakeCfg := { lakeMatches := fun _ => true, skipIslands := false }

/-- A Rivers configuration with the `__main__` defaults when no thresholds,
pen or bounds are given: `MIN_UPSTREAM = -1`, `MAX_UPSTREAM = 100000000000`,
simple header, no bounds check. -/
def cfgRivDefault : RivCfg :=
  { minUpstream := -1, maxUpstream := 100000000000, runSilent := false,
    copyWithinBounds := false, segmentHeaderIsSimple := true,
    checkBoundsOnLine := fun _ => true }

/-- The dateline-crossing bounds of the claim: `W=170, E=-170, S=-10, N=10`
with the flag the validator computes. -/
def datelineBounds : GeoBounds :=
  { west := 170, east := -170, south := -10, north := 10,
    crossesDateline := true }

/-- Rivers input whose first segment has a malformed attribute line (no `|`)
and whose second segment is well-formed. -/
def linesRivMalformed : List Line :=
  [gtLine, tl "# @Dbad\n", tl "142.2 -10.1\n",
   gtLine, tl "# @D2|77\n", tl "143.0 -11.0\n"]

/-- Lakes input whose boundary line carries extra text after `>`. -/
def linesLakeFatBoundary : List Line :=
  [tl "> -Z4\n", tl "# @D7|x\n"]

/-- A lake block with two islands, used against the statistics claim. -/
def lbTwoIslands : LakeBlock :=
  { hdr := tl "# @D8|Lake Example|Chile\n",
    body := [tl "# @P\n", tl "1.5 2.5\n"],
    islands :=
      [ { hdr := tl "# @H\n", body := [tl "1.6 2.6\n"] },
        { hdr := tl "# @H\n", body := [tl "1.7 2.7\n"] } ] }

/-- A lake block with one island, used as a witness feature. -/
def lbOneIsland : LakeBlock :=
  { hdr := tl "# @D1|Lake One|Peru\n",
    body := [tl "# @P\n", tl "3.5 4.5\n"],
    islands := [ { hdr := tl "# @H\n", body := [tl "3.6 4.6\n"] } ] }

/-! ## Theorems -/

theorem pointWithin_iff (b : GeoBounds) (lat lon : ℚ)
    (hlo : -180 ≤ lon) (hhi : lon ≤ 180) :
    PointWithinBoundry lat lon b = true ↔
      (b.south ≤ lat ∧ lat ≤ b.north ∧
        (if b.crossesDateline then (b.west ≤ lon ∨ lon ≤ b.east)
         else (b.west ≤ lon ∧ lon ≤ b.east))) := by
  unfold PointWithinBoundry
  cases hb : b.crossesDateline <;>
    by_cases h1 : lat ≤ b.north <;> by_cases h2 : b.south ≤ lat <;>
    by_cases h3 : lon ≤ b.east <;> by_cases h4 : b.west ≤ lon <;>
    simp [h1, h2, h3, h4, hb, hlo, hhi, ge_iff_le]

theorem lakeBoundsSimple_iff (b : GeoBounds) (lat lon : ℚ)
    (hlo : -180 ≤ lon) (hhi : lon ≤ 180) :
    LakeMatchesBoundsSimple lon lat b = true ↔
      (b.south ≤ lat ∧ lat ≤ b.north ∧
        (if b.crossesDateline then (b.west ≤ lon ∨ lon ≤ b.east)
         else (b.west ≤ lon ∧ lon ≤ b.east))) := by
  unfold LakeMatchesBoundsSimple
  cases hb : b.crossesDateline <;>
    by_cases h1 : lat ≤ b.north <;> by_cases h2 : b.south ≤ lat <;>
    by_cases h3 : lon ≤ b.east <;> by_cases h4 : b.west ≤ lon <;>
    simp [h1, h2, h3, h4, hb, hlo, hhi, ge_iff_le]

/-- C1: for bounds validated by `BoundsDatelineCheck` (which supplies the
`crosses_dateline` flag) and any point with longitude in [-180, 180], both
bounds predicates accept the point iff `S ≤ lat ≤ N` and, without a dateline
crossing, `W ≤ lon ≤ E`; with a dateline crossing, iff `lon ≥ W` or
`lon ≤ E`. -/
theorem c1_bounds_predicate (W E S N lat lon : ℚ) (cross : Bool)
    (hv : BoundsDatelineCheck W E S N = Except.ok cross)
    (hlo : -180 ≤ lon) (hhi : lon ≤ 180) :
    (PointWithinBoundry lat lon ⟨W, E, S, N, cross⟩ = true ↔
      (S ≤ lat ∧ lat ≤ N ∧
        (if cross then (W ≤ lon ∨ lon ≤ E) else (W ≤ lon ∧ lon ≤ E))))
    ∧ (LakeMatchesBoundsSimple lon lat ⟨W, E, S, N, cross⟩ = true ↔
      (S ≤ lat ∧ lat ≤ N ∧
        (if cross then (W ≤ lon ∨ lon ≤ E) else (W ≤ lon ∧ lon ≤ E)))) := by
  exact ⟨pointWithin_iff ⟨W, E, S, N, cross⟩ lat lon hlo hhi,
    lakeBoundsSimple_iff ⟨W, E, S, N, cross⟩ lat lon hlo hhi⟩

/-- Witness for C1: the validator marks `W=170, E=-170, S=-10, N=10` as
dateline-crossing, and with it the point predicates accept `lon = 175` and
`lon = -175` at `lat = 0` and reject `lon = 0`. -/
theorem c1_bounds_predicate_witness :
    BoundsDatelineCheck 170 (-170) (-10) 10 = Except.ok true
    ∧ PointWithinBoundry 0 175 datelineBounds = true
    ∧ PointWithinBoundry 0 (-175) datelineBounds = true
    ∧ PointWithinBoundry 0 0 datelineBounds = false
    ∧ LakeMatchesBoundsSimple 175 0 datelineBounds = true := by
  refine ⟨by rfl, ?_, by decide, by decide, ?_⟩
  · exact (c1_bounds_predicate 170 (-170) (-10) 10 0 175 true (by rfl)
      (by norm_num) (by norm_num)).1.mpr (by norm_num)
  · exact (c1_bounds_predicate 170 (-170) (-10) 10 0 175 true (by rfl)
      (by norm_num) (by norm_num)).2.mpr (by norm_num)

/-- C4: `BoundsDatelineCheck` fails iff `S ≥ N`, a latitude is outside
[-90, 90], `W = E`, or a longitude is outside [-180, 180]; each of the
conditions, screened by the source's check order, yields its own distinct
error kind; on success the returned flag is true iff `W ≥ E`. -/
theorem c4_bounds_validator (W E S N : ℚ) :
    (exceptOk (BoundsDatelineCheck W E S N) = true ↔
      ¬(N ≤ S ∨ ¬(-90 ≤ S ∧ S ≤ 90) ∨ ¬(-90 ≤ N ∧ N ≤ 90) ∨ W = E
        ∨ ¬(-180 ≤ W ∧ W ≤ 180) ∨ ¬(-180 ≤ E ∧ E ≤ 180)))
    ∧ (¬(N ≤ S ∨ ¬(-90 ≤ S ∧ S ≤ 90) ∨ ¬(-90 ≤ N ∧ N ≤ 90) ∨ W = E
        ∨ ¬(-180 ≤ W ∧ W ≤ 180) ∨ ¬(-180 ≤ E ∧ E ≤ 180)) →
      ∃ c, BoundsDatelineCheck W E S N = .ok c ∧ (c = true ↔ W ≥ E))
    ∧ (N ≤ S → BoundsDatelineCheck W E S N = .error .SN)
    ∧ (S < N → ¬(-90 ≤ S ∧ S ≤ 90) →
      BoundsDatelineCheck W E S N = .error .S)
    ∧ (S < N → (-90 ≤ S ∧ S ≤ 90) → ¬(-90 ≤ N ∧ N ≤ 90) →
      BoundsDatelineCheck W E S N = .error .N)
    ∧ (S < N → (-90 ≤ S ∧ S ≤ 90) → (-90 ≤ N ∧ N ≤ 90) → W = E →
      BoundsDatelineCheck W E S N = .error .WE)
    ∧ (S < N → (-90 ≤ S ∧ S ≤ 90) → (-90 ≤ N ∧ N ≤ 90) → W ≠ E →
      ¬(-180 ≤ W ∧ W ≤ 180) → BoundsDatelineCheck W E S N = .error .W)
    ∧ (S < N → (-90 ≤ S ∧ S ≤ 90) → (-90 ≤ N ∧ N ≤ 90) → W ≠ E →
      (-180 ≤ W ∧ W ≤ 180) → ¬(-180 ≤ E ∧ E ≤ 180) →
      BoundsDatelineCheck W E S N = .error .E) := by
  refine ⟨?_, ?_, ?_, ?_, ?_, ?_, ?_, ?_⟩
  · constructor
    · intro hok
      unfold BoundsDatelineCheck exceptOk at hok
      split_ifs at hok with h1 h2 h3 h4 h5 h6 <;> try simp at hok
      push_neg at h1 h2 h3 h4 h5 h6
      rintro (h | h | h | h | h | h)
      · linarith
      · exact h ⟨h2.1, h2.2⟩
      · exact h ⟨h3.1, h3.2⟩
      · exact h4 h
      · exact h ⟨h5.1, h5.2.1⟩
      · exact h ⟨h6.1, h6.2.1⟩
    · intro hfail
      push_neg at hfail
      obtain ⟨hsn, hs, hn, hwe, hw, he⟩ := hfail
      unfold BoundsDatelineCheck exceptOk
      rw [if_neg (not_not.mpr hsn), if_neg (not_not.mpr ⟨hs.1, hs.2⟩),
        if_neg (not_not.mpr ⟨hn.1, hn.2⟩), if_neg (not_not.mpr hwe),
        if_neg (not_not.mpr ⟨hw.1, hw.2, hwe⟩),
        if_neg (not_not.mpr ⟨he.1, he.2, hwe⟩)]
  · intro hfail
    push_neg at hfail
    obtain ⟨hsn, hs, hn, hwe, hw, he⟩ := hfail
    unfold BoundsDatelineCheck
    rw [if_neg (not_not.mpr hsn), if_neg (not_not.mpr ⟨hs.1, hs.2⟩),
      if_neg (not_not.mpr ⟨hn.1, hn.2⟩), if_neg (not_not.mpr hwe),
      if_neg (not_not.mpr ⟨hw.1, hw.2, hwe⟩),
      if_neg (not_not.mpr ⟨he.1, he.2, hwe⟩)]
    exact ⟨_, rfl, by simp [decide_eq_true_eq, ge_iff_le, not_lt]⟩
  · intro hsn
    unfold BoundsDatelineCheck
    rw [if_pos (not_lt.mpr hsn)]
  · intro hsn hs
    unfold BoundsDatelineCheck
    rw [if_neg (not_not.mpr hsn), if_pos (fun hc => hs ⟨hc.1, hc.2⟩)]
  · intro hsn hs hn
    unfold BoundsDatelineCheck
    rw [if_neg (not_not.mpr hsn), if_neg (not_not.mpr ⟨hs.1, hs.2⟩),
      if_pos (fun hc => hn ⟨hc.1, hc.2⟩)]
  · intro hsn hs hn hwe
    unfold BoundsDatelineCheck
    rw [if_neg (not_not.mpr hsn), if_neg (not_not.mpr ⟨hs.1, hs.2⟩),
      if_neg (not_not.mpr ⟨hn.1, hn.2⟩), if_pos (not_not.mpr hwe)]
  · intro hsn hs hn hwe hw
    unfold BoundsDatelineCheck
    rw [if_neg (not_not.mpr hsn), if_neg (not_not.mpr ⟨hs.1, hs.2⟩),
      if_neg (not_not.mpr ⟨hn.1, hn.2⟩), if_neg (not_not.mpr hwe),
      if_pos (fun hc => hw ⟨hc.1, hc.2.1⟩)]
  · intro hsn hs hn hwe hw he
    unfold BoundsDatelineCheck
    rw [if_neg (not_not.mpr hsn), if_neg (not_not.mpr ⟨hs.1, hs.2⟩),
      if_neg (not_not.mpr ⟨hn.1, hn.2⟩), if_neg (not_not.mpr hwe),
      if_neg (not_not.mpr ⟨hw.1, hw.2, hwe⟩),
      if_pos (fun hc => he ⟨hc.1, hc.2.1⟩)]

/-- Witness for C4: the validator rejects `S=10, N=5` as `SN`, `S=100` as
`S`, `W=E=30` as `WE`, and accepts `W=-10, E=10, S=0, N=20` with a
non-crossing flag. -/
theorem c4_bounds_validator_witness :
    BoundsDatelineCheck 0 10 10 5 = Except.error .SN
    ∧ BoundsDatelineCheck 0 10 100 200 = Except.error .S
    ∧ BoundsDatelineCheck 30 30 0 10 = Except.error .WE
    ∧ (∃ c, BoundsDatelineCheck (-10) 10 0 20 = .ok c ∧ (c = true ↔ (-10 : ℚ) ≥ 10)) := by
  refine ⟨(c4_bounds_validator 0 10 10 5).2.2.1 (by norm_num),
    (c4_bounds_validator 0 10 100 200).2.2.2.1 (by norm_num) (by norm_num),
    (c4_bounds_validator 30 30 0 10).2.2.2.2.2.1 (by norm_num) (by norm_num)
      (by norm_num) rfl,
    (c4_bounds_validator (-10) 10 0 20).2.1 ?_⟩
  push_neg
  norm_num

/-- C5 counterexample: on the line `"# @D1|2|3\n"` the text after the LAST
pipe is the digit string `"3"`, so the claim demands a successful parse of 3,
but `ParseUpstreamCells` takes the text after the FIRST pipe (`"2|3"`) and
fails. -/
theorem c5_counterexample :
    ParseUpstreamCells (tl "# @D1|2|3\n") = none
    ∧ upstreamCellsSpecLastPipe (tl "# @D1|2|3\n") = some 3 := by
  constructor <;> rfl

/-- Helper: `ParseUpstreamCells` ignores a leading character that is not a
pipe. -/
theorem parseUpstream_cons (c : Char) (l : Line) (hc : c ≠ '|') :
    ParseUpstreamCells (c :: l) = ParseUpstreamCells l := by
  simp [ParseUpstreamCells, List.dropWhile_cons, hc]

/-- C5 amended: `ParseUpstreamCells` succeeds with the value of the stripped
text after the FIRST `|` of the line exactly when that text is a non-empty
digit string, and fails when the line has no `|` at all. -/
theorem c5_upstream_first_pipe :
    (∀ pre post : Line, '|' ∉ pre →
      ParseUpstreamCells (pre ++ '|' :: post) =
        (if pyIsDigitStr (pyStrip post) then some (digitsVal (pyStrip post))
         else none))
    ∧ (∀ l : Line, '|' ∉ l → ParseUpstreamCells l = none) := by
  constructor
  · intro pre
    induction pre with
    | nil =>
      intro post _
      simp [ParseUpstreamCells, List.dropWhile_cons]
    | cons c pre ih =>
      intro post hno
      rw [List.cons_append,
        parseUpstream_cons c (pre ++ '|' :: post) (fun h => hno (h ▸ List.mem_cons_self c pre)),
        ih post (fun h => hno (List.mem_cons_of_mem c h))]
  · intro l hl
    have hdrop : l.dropWhile (fun c => decide (c ≠ '|')) = [] := by
      rw [List.dropWhile_eq_nil_iff]
      intro x hx
      simp only [decide_eq_true_eq]
      exact fun hxeq => hl (hxeq ▸ hx)
    unfold ParseUpstreamCells
    rw [hdrop]

/-- Witness for C5 amended: the well-formed river attribute line
`"# @D1|121\n"` parses to 121. -/
theorem c5_upstream_first_pipe_witness :
    ParseUpstreamCells (tl "# @D1|121\n") = some 121 := by
  have h := c5_upstream_first_pipe.1 (tl "# @D1") (tl "121\n") (by decide)
  rw [show tl "# @D1|121\n" = tl "# @D1" ++ '|' :: tl "121\n" from rfl] at *
  rw [h]
  rfl

/-- C8: the substring predicates are case-insensitive containment tests, but
the sentinel needle `"!"` has no special case: an empty name field does NOT
match it (`'!' in ''` is false), while any name merely containing `'!'`
does — contradicting the source's own CLI help ("Use -LN ! for only lakes
with empty name field"). -/
theorem c8_sentinel_not_special :
    LakeMatchesName (pyLower (tl "!")) (tl "") = false
    ∧ LakeMatchesName (pyLower (tl "!")) (tl "Oh! Lake") = true
    ∧ LakeMatchesCountry (pyLower (tl "Chile")) (tl "CHILE") = true
    ∧ LakeMatchesCountry (pyLower (tl "Chile")) (tl "Bolivia") = false := by
  refine ⟨by decide, by decide, by decide, by decide⟩

/-- C9 counterexample: `SHEDSrivParser.__init__` accepts
`ThresholdHigh = 5, ThresholdLow = 10` (max < min) — it never compares the
two thresholds — so construction succeeds where the claim demands a
configuration error. -/
theorem c9_counterexample :
    SHEDSrivParserInit true true false false none (some 5) (some 10)
      (some (0, 10, 0, 10)) true =
      Except.ok ⟨5, 10, ⟨0, 10, 0, 10, false⟩, true, true⟩ := by
  rfl

/-- C9 amended: the Lakes `__init__` does fail with a configuration error
when both AreaMin and AreaMax are set with max < min, but the Rivers
`__init__` performs no such check: with any thresholds (in particular
max < min) and valid bounds it succeeds. -/
theorem c9_range_check_amended :
    (∀ (mn mx : ℚ) (sb : Option (ℚ × ℚ × ℚ × ℚ)) (bf : Option Bool) (si : Bool),
      mx < mn →
      LakesParserInit true false false (some mn) (some mx) sb bf si =
        Except.error .areaMinMax)
    ∧ (∀ (th tlw : Int) (w e s0 n0 : ℚ),
      ValidateSimpleBounds w e s0 n0 = true →
      SHEDSrivParserInit true true false false none (some th) (some tlw)
        (some (w, e, s0, n0)) true =
        Except.ok ⟨th, tlw, ⟨w, e, s0, n0, decide (¬ (w < e))⟩, true, true⟩) := by
  constructor
  · intro mn mx sb bf si h
    simp [LakesParserInit, h]
  · intro th tlw w e s0 n0 h
    simp [SHEDSrivParserInit, h]

/-- Witness for C9 amended: `AreaMin=10, AreaMax=5` fails Lakes
construction; `ThresholdHigh=100, ThresholdLow=7` with bounds
`W=0, E=10, S=0, N=10` succeeds Rivers construction. -/
theorem c9_range_check_amended_witness :
    LakesParserInit true false false (some 10) (some 5) none none false =
      Except.error .areaMinMax
    ∧ SHEDSrivParserInit true true false false none (some 100) (some 7)
        (some (0, 10, 0, 10)) true =
      Except.ok ⟨100, 7, ⟨0, 10, 0, 10, false⟩, true, true⟩ := by
  refine ⟨c9_range_check_amended.1 10 5 none none false (by norm_num), ?_⟩
  rw [c9_range_check_amended.2 100 7 0 10 0 10 (by rfl)]
  rfl

theorem parseLAKESFrom_nil (cfg : LakeCfg) (st : LakeState) :
    parseLAKESFrom cfg st [] = st := rfl

theorem parseLAKESFrom_cons (cfg : LakeCfg) (st : LakeState) (l : Line)
    (ls : List Line) :
    parseLAKESFrom cfg st (l :: ls) = parseLAKESFrom cfg (lakeStep cfg st l) ls := rfl

theorem parseLAKESFrom_append (cfg : LakeCfg) (st : LakeState)
    (xs ys : List Line) :
    parseLAKESFrom cfg st (xs ++ ys) =
      parseLAKESFrom cfg (parseLAKESFrom cfg st xs) ys := by
  simp [parseLAKESFrom, List.foldl_append]

theorem lakeStep_gt (cfg : LakeCfg) (st : LakeState)
    (hH : st.headerFound = false) :
    lakeStep cfg st gtLine =
      { st with countLines := st.countLines + 1, headerFound := true } := by
  simp [lakeStep, hH, gtLine, pyIsSpace, headIs]

theorem lakeStep_content (cfg : LakeCfg) (st : LakeState) (l : Line)
    (hH : st.headerFound = false) (hc : ContentLineB l = true) :
    lakeStep cfg st l =
      { st with countLines := st.countLines + 1,
                output := st.output ++ (if st.skipUntilHeader then [] else [l]) } := by
  simp only [ContentLineB, Bool.and_eq_true, Bool.not_eq_true',
    Bool.or_eq_true] at hc
  obtain ⟨⟨hsp, hgt⟩, hcd⟩ := hc
  cases hsk : st.skipUntilHeader <;>
    rcases hcd with (h | h) | h <;>
    simp_all [lakeStep]

theorem lakeStep_dHeader_acc (cfg : LakeCfg) (st : LakeState) (l : Line)
    (hH : st.headerFound = true) (hd : dMark.isPrefixOf l = true)
    (hm : cfg.lakeMatches l = true) :
    lakeStep cfg st l =
      { st with countLines := st.countLines + 1, headerFound := false,
                countLakes := st.countLakes + 1,
                mostIslandsInLake := max st.mostIslandsInLake st.countIslandsThisLake,
                countIslandsThisLake := 0,
                skipThisLake := false, skipUntilHeader := false,
                output := st.output ++ [gtLine, l],
                countLakesCopied := st.countLakesCopied + 1 } := by
  simp [lakeStep, hH, hd, hm]

theorem lakeStep_dHeader_rej (cfg : LakeCfg) (st : LakeState) (l : Line)
    (hH : st.headerFound = true) (hd : dMark.isPrefixOf l = true)
    (hm : cfg.lakeMatches l = false) :
    lakeStep cfg st l =
      { st with countLines := st.countLines + 1, headerFound := false,
                countLakes := st.countLakes + 1,
                mostIslandsInLake := max st.mostIslandsInLake st.countIslandsThisLake,
                countIslandsThisLake := 0,
                skipThisLake := true, skipUntilHeader := true } := by
  simp [lakeStep, hH, hd, hm]

theorem lakeStep_hHeader (cfg : LakeCfg) (st : LakeState) (l : Line)
    (hH : st.headerFound = true) (hnd : dMark.isPrefixOf l = false)
    (hh : hMark.isPrefixOf l = true) :
    lakeStep cfg st l =
      { st with countLines := st.countLines + 1, headerFound := false,
                countTotalIslands := st.countTotalIslands + 1,
                countIslandsThisLake := st.countIslandsThisLake + 1,
                skipUntilHeader := !(!st.skipThisLake && !cfg.skipIslands),
                output := st.output ++
                  (if !st.skipThisLake && !cfg.skipIslands then [gtLine, l] else []),
                countTotalIslandsCopied := st.countTotalIslandsCopied +
                  (if !st.skipThisLake && !cfg.skipIslands then 1 else 0) } := by
  cases hsk : st.skipThisLake <;> cases hsi : cfg.skipIslands <;>
    simp_all [lakeStep]

theorem parseLAKESFrom_body (cfg : LakeCfg) (body : List Line) :
    ∀ st : LakeState, st.headerFound = false → body.all ContentLineB = true →
    parseLAKESFrom cfg st body =
      { st with countLines := st.countLines + body.length,
                output := st.output ++ (if st.skipUntilHeader then [] else body) } := by
  induction body with
  | nil =>
    intro st _ _
    simp [parseLAKESFrom]
  | cons l rest ih =>
    intro st hH hall
    simp only [List.all_cons, Bool.and_eq_true] at hall
    rw [parseLAKESFrom_cons, lakeStep_content cfg st l hH hall.1,
      ih _ (by simp [hH]) hall.2]
    cases hsk : st.skipUntilHeader <;>
      simp [hsk, Nat.add_assoc, Nat.add_comm 1 rest.length]

theorem hMark_not_dMark (l : Line) (h : hMark.isPrefixOf l = true) :
    dMark.isPrefixOf l = false := by
  rcases l with _ | ⟨a, _ | ⟨b, _ | ⟨c, _ | ⟨d, rest⟩⟩⟩⟩ <;>
    simp_all [hMark, dMark, List.isPrefixOf] <;>
    rintro - - - rfl <;> exact (by decide : ¬ ('D' : Char) = 'H') h.2.2.2.symm

theorem parseLAKESFrom_island (cfg : LakeCfg) (ib : IslandBlock)
    (st : LakeState) (hH : st.headerFound = false)
    (hwf : WFIslandB ib = true) :
    parseLAKESFrom cfg st (renderIsland ib) =
      { st with countLines := st.countLines + (2 + ib.body.length),
                headerFound := false,
                countTotalIslands := st.countTotalIslands + 1,
                countIslandsThisLake := st.countIslandsThisLake + 1,
                skipUntilHeader := !(!st.skipThisLake && !cfg.skipIslands),
                output := st.output ++
                  (if !st.skipThisLake && !cfg.skipIslands then
                    gtLine :: ib.hdr :: ib.body else []),
                countTotalIslandsCopied := st.countTotalIslandsCopied +
                  (if !st.skipThisLake && !cfg.skipIslands then 1 else 0) } := by
  simp only [WFIslandB, Bool.and_eq_true] at hwf
  rw [renderIsland, parseLAKESFrom_cons, lakeStep_gt cfg st hH,
    parseLAKESFrom_cons,
    lakeStep_hHeader cfg _ ib.hdr (by simp) (hMark_not_dMark ib.hdr hwf.1) hwf.1,
    parseLAKESFrom_body cfg ib.body _ (by simp) hwf.2]
  cases hsk : st.skipThisLake <;> cases hsi : cfg.skipIslands <;>
    simp [hsk, hsi] <;> omega

theorem parseLAKESFrom_islands (cfg : LakeCfg) (ibs : List IslandBlock) :
    ∀ st : LakeState, st.headerFound = false → ibs.all WFIslandB = true →
    parseLAKESFrom cfg st (ibs.flatMap renderIsland) =
      { st with
        countLines := st.countLines + (ibs.flatMap renderIsland).length,
        headerFound := false,
        countTotalIslands := st.countTotalIslands + ibs.length,
        countIslandsThisLake := st.countIslandsThisLake + ibs.length,
        skipUntilHeader :=
          if ibs.isEmpty then st.skipUntilHeader
          else !(!st.skipThisLake && !cfg.skipIslands),
        output := st.output ++
          (if !st.skipThisLake && !cfg.skipIslands then ibs.flatMap renderIsland
           else []),
        countTotalIslandsCopied := st.countTotalIslandsCopied +
          (if !st.skipThisLake && !cfg.skipIslands then ibs.length else 0) } := by
  induction ibs with
  | nil =>
    intro st hH _
    cases st
    simp_all [parseLAKESFrom]
  | cons ib rest ih =>
    intro st hH hall
    simp only [List.all_cons, Bool.and_eq_true] at hall
    rw [List.flatMap_cons, parseLAKESFrom_append,
      parseLAKESFrom_island cfg ib st hH hall.1,
      ih _ (by simp) hall.2]
    cases hkeep : (!st.skipThisLake && !cfg.skipIslands) <;>
      cases hrest : rest.isEmpty <;>
      simp [hkeep, hrest, renderIsland] <;> omega

theorem parseLAKESFrom_lake (cfg : LakeCfg) (lb : LakeBlock) (st : LakeState)
    (hH : st.headerFound = false) (hwf : WFLakeB lb = true) :
    parseLAKESFrom cfg st (renderLake lb) =
      { st with
        countLines := st.countLines + (renderLake lb).length,
        headerFound := false,
        countLakes := st.countLakes + 1,
        mostIslandsInLake := max st.mostIslandsInLake st.countIslandsThisLake,
        countIslandsThisLake := lb.islands.length,
        countTotalIslands := st.countTotalIslands + lb.islands.length,
        skipThisLake := !cfg.lakeMatches lb.hdr,
        skipUntilHeader :=
          if lb.islands.isEmpty then !cfg.lakeMatches lb.hdr
          else (!cfg.lakeMatches lb.hdr || cfg.skipIslands),
        countLakesCopied := st.countLakesCopied +
          (if cfg.lakeMatches lb.hdr then 1 else 0),
        countTotalIslandsCopied := st.countTotalIslandsCopied +
          (if cfg.lakeMatches lb.hdr && !cfg.skipIslands then lb.islands.length
           else 0),
        output := st.output ++ lakeOutput cfg lb } := by
  simp only [WFLakeB, Bool.and_eq_true] at hwf
  obtain ⟨⟨hd, hbody⟩, hisl⟩ := hwf
  rw [renderLake, parseLAKESFrom_cons, lakeStep_gt cfg st hH, parseLAKESFrom_cons]
  cases hm : cfg.lakeMatches lb.hdr
  case false =>
    rw [lakeStep_dHeader_rej cfg _ lb.hdr (by simp) hd hm,
      parseLAKESFrom_append, parseLAKESFrom_body cfg lb.body _ (by simp) hbody,
      parseLAKESFrom_islands cfg lb.islands _ (by simp) hisl]
    cases hie : lb.islands.isEmpty <;>
      simp [hie, lakeOutput, hm, renderIsland] <;> omega
  case true =>
    rw [lakeStep_dHeader_acc cfg _ lb.hdr (by simp) hd hm,
      parseLAKESFrom_append, parseLAKESFrom_body cfg lb.body _ (by simp) hbody,
      parseLAKESFrom_islands cfg lb.islands _ (by simp) hisl]
    cases hsi : cfg.skipIslands <;> cases hie : lb.islands.isEmpty <;>
      simp [hsi, hie, lakeOutput, hm, renderIsland] <;> omega

/-- C2: for a well-formed lake feature, if the lake is accepted its islands
are all emitted (and all counted kept) iff `SkipIslands` is false (none when
it is true); if the lake is suppressed, nothing of it — islands included —
reaches the output. -/
theorem c2_island_invariant (cfg : LakeCfg) (lb : LakeBlock)
    (hwf : WFLakeB lb = true) :
    (cfg.lakeMatches lb.hdr = true →
      (parseLAKES cfg (renderLake lb)).output =
        gtLine :: lb.hdr ::
          (lb.body ++
            (if cfg.skipIslands then [] else lb.islands.flatMap renderIsland))
      ∧ (parseLAKES cfg (renderLake lb)).countTotalIslandsCopied =
          (if cfg.skipIslands then 0 else lb.islands.length))
    ∧ (cfg.lakeMatches lb.hdr = false →
      (parseLAKES cfg (renderLake lb)).output = []
      ∧ (parseLAKES cfg (renderLake lb)).countTotalIslandsCopied = 0) := by
  unfold parseLAKES
  rw [parseLAKESFrom_lake cfg lb lakeInit rfl hwf]
  constructor <;> intro hm <;>
    cases hsi : cfg.skipIslands <;> simp [lakeOutput, hm, hsi, lakeInit]

/-- Witness for C2: the one-island example lake is well-formed, and a run
that accepts it and keeps islands emits the feature in full. -/
theorem c2_island_invariant_witness :
    WFLakeB lbOneIsland = true
    ∧ (parseLAKES cfgAllLakes (renderLake lbOneIsland)).output =
        gtLine :: lbOneIsland.hdr ::
          (lbOneIsland.body ++ lbOneIsland.islands.flatMap renderIsland)
    ∧ (parseLAKES cfgAllLakes (renderLake lbOneIsland)).countTotalIslandsCopied
        = 1 := by
  refine ⟨by decide, ?_, ?_⟩
  · have h := ((c2_island_invariant cfgAllLakes lbOneIsland (by decide)).1 rfl).1
    simpa [cfgAllLakes] using h
  · have h := ((c2_island_invariant cfgAllLakes lbOneIsland (by decide)).1 rfl).2
    simpa [cfgAllLakes, lbOneIsland] using h

set_option maxHeartbeats 800000 in
theorem lakeStep_output_cases (cfg : LakeCfg) (st : LakeState) (l : Line) :
    (lakeStep cfg st l).output = st.output
    ∨ (lakeStep cfg st l).output = st.output ++ [l]
    ∨ (lakeStep cfg st l).output = st.output ++ [gtLine, l] := by
  simp only [lakeStep]
  repeat' split
  all_goals simp

theorem rivHeaderPhase_output_saved (cfg : RivCfg) (st : RivState) (l : Line) :
    (rivHeaderPhase cfg st l).output = st.output
    ∧ (rivHeaderPhase cfg st l).savedCommentLine = st.savedCommentLine := by
  cases hp : ParseUpstreamCells l <;> simp only [rivHeaderPhase, hp] <;>
    repeat' split <;> try simp

set_option maxHeartbeats 800000 in
theorem rivStep_output_cases (cfg : RivCfg) (st : RivState) (l : Line) :
    ((rivStep cfg st l).output = st.output
     ∨ (rivStep cfg st l).output = st.output ++ [l]
     ∨ (rivStep cfg st l).output =
        st.output ++ [rivHeaderLine cfg, st.savedCommentLine, l]) := by
  obtain ⟨ho, hs⟩ := rivHeaderPhase_output_saved cfg st l
  rw [rivStep, ← ho, ← hs]
  generalize rivHeaderPhase cfg st l = s2
  simp only [rivStepChain]
  repeat' split
  all_goals simp

set_option maxHeartbeats 800000 in
theorem rivStep_saved_cases (cfg : RivCfg) (st : RivState) (l : Line) :
    (rivStep cfg st l).savedCommentLine = st.savedCommentLine
    ∨ (rivStep cfg st l).savedCommentLine = l := by
  obtain ⟨-, hs⟩ := rivHeaderPhase_output_saved cfg st l
  rw [rivStep, ← hs]
  generalize rivHeaderPhase cfg st l = s2
  simp only [rivStepChain]
  repeat' split
  all_goals simp

theorem parseLAKESFrom_output_sub (cfg : LakeCfg) (lines : List Line) :
    ∀ (st : LakeState) (S : List Line),
    (∀ x ∈ st.output, x ∈ S ∨ x = gtLine) → (∀ l ∈ lines, l ∈ S) →
    ∀ x ∈ (parseLAKESFrom cfg st lines).output, x ∈ S ∨ x = gtLine := by
  induction lines with
  | nil => exact fun st S hst _ x hx => hst x hx
  | cons l rest ih =>
    intro st S hst hls x hx
    rw [parseLAKESFrom_cons] at hx
    refine ih _ S ?_ (fun a ha => hls a (List.mem_cons_of_mem l ha)) x hx
    intro y hy
    rcases lakeStep_output_cases cfg st l with h | h | h <;> rw [h] at hy <;>
      try simp only [List.mem_append, List.mem_cons, List.mem_singleton,
        List.not_mem_nil, or_false] at hy
    · exact hst y hy
    · rcases hy with hy | hy
      · exact hst y hy
      · exact Or.inl (hy ▸ hls l (List.mem_cons_self l rest))
    · rcases hy with hy | hy | hy
      · exact hst y hy
      · exact Or.inr hy
      · exact Or.inl (hy ▸ hls l (List.mem_cons_self l rest))

theorem parseRIVFrom_output_sub (cfg : RivCfg) (lines : List Line) :
    ∀ (st : RivState) (S : List Line),
    (∀ x ∈ st.output, x ∈ S ∨ x = gtLine ∨ x = penLine ∨ x = []) →
    (st.savedCommentLine ∈ S ∨ st.savedCommentLine = []) →
    (∀ l ∈ lines, l ∈ S) →
    ∀ x ∈ (parseRIVFrom cfg st lines).output,
      x ∈ S ∨ x = gtLine ∨ x = penLine ∨ x = [] := by
  induction lines with
  | nil => exact fun st S hst _ _ x hx => hst x hx
  | cons l rest ih =>
    intro st S hst hsv hls x hx
    have hstep : parseRIVFrom cfg st (l :: rest) =
        parseRIVFrom cfg (rivStep cfg st l) rest := rfl
    rw [hstep] at hx
    have hl : l ∈ S := hls l (List.mem_cons_self l rest)
    refine ih _ S ?_ ?_ (fun a ha => hls a (List.mem_cons_of_mem l ha)) x hx
    · intro y hy
      rcases rivStep_output_cases cfg st l with h | h | h <;> rw [h] at hy <;>
        try simp only [List.mem_append, List.mem_cons, List.mem_singleton,
          List.not_mem_nil, or_false] at hy
      · exact hst y hy
      · rcases hy with hy | hy
        · exact hst y hy
        · exact Or.inl (hy ▸ hl)
      · rcases hy with hy | hy | hy | hy
        · exact hst y hy
        · unfold rivHeaderLine at hy
          cases hsimple : cfg.segmentHeaderIsSimple <;> rw [hsimple] at hy <;>
            simp at hy <;> subst hy
          · exact Or.inr (Or.inr (Or.inl rfl))
          · exact Or.inr (Or.inl rfl)
        · rcases hsv with hsv | hsv
          · exact Or.inl (hy ▸ hsv)
          · exact Or.inr (Or.inr (Or.inr (hy ▸ hsv)))
        · exact Or.inl (hy ▸ hl)
    · rcases rivStep_saved_cases cfg st l with h | h <;> rw [h]
      · exact hsv
      · exact Or.inl hl

/-- C3 counterexample: on an input whose boundary line is `"> -Z4\n"`, the
accepted lake's boundary is rewritten to the fixed `">\n"`, a line that is
byte-identical to no input line — the Rivers pen rewrite is not the only
place output differs from input. -/
theorem c3_counterexample :
    gtLine ∈ (parseLAKES cfgAllLakes linesLakeFatBoundary).output
    ∧ gtLine ∉ linesLakeFatBoundary := by
  constructor <;> decide

/-- C3 amended: every line either parser writes is byte-identical to an
input line except the re-emitted segment boundaries: the Lakes variant
always writes the fixed `">\n"` in place of the original boundary line, and
the Rivers variant writes `">\n"` or its fixed pen directive (plus the
initially-empty saved comment when a segment lacks an attribute line).
Comment, data and header lines are copied verbatim. -/
theorem c3_output_lines_amended :
    (∀ (cfg : LakeCfg) (lines : List Line) (x : Line),
      x ∈ (parseLAKES cfg lines).output → x ∈ lines ∨ x = gtLine)
    ∧ (∀ (cfg : RivCfg) (lines : List Line) (x : Line),
      x ∈ (parseRIV cfg lines).output →
        x ∈ lines ∨ x = gtLine ∨ x = penLine ∨ x = []) := by
  constructor
  · intro cfg lines x hx
    exact parseLAKESFrom_output_sub cfg lines lakeInit lines
      (by simp [lakeInit]) (fun _ h => h) x hx
  · intro cfg lines x hx
    exact parseRIVFrom_output_sub cfg lines rivInit lines
      (by simp [rivInit]) (Or.inr rfl) (fun _ h => h) x hx

/-- Witness for C3 amended: in the fat-boundary run, the header line written
to the output is indeed an input line, and the written boundary is the fixed
`">\n"`. -/
theorem c3_output_lines_amended_witness :
    (tl "# @D7|x\n" ∈ linesLakeFatBoundary ∨ tl "# @D7|x\n" = gtLine)
    ∧ (gtLine ∈ linesLakeFatBoundary ∨ gtLine = gtLine) := by
  refine ⟨c3_output_lines_amended.1 cfgAllLakes linesLakeFatBoundary _ (by decide),
    c3_output_lines_amended.1 cfgAllLakes linesLakeFatBoundary _ (by decide)⟩

/-- C7 counterexample: the line `"a1\n"` (neither boundary, blank nor
comment, first non-blank character not a digit, first character not a sign)
must be Unrecognized and dropped per the claim, yet the Lakes loop classifies
it as Data (`line[1].isdigit()`) and writes it verbatim; conversely the data
line `"1 2.3\n"` (first character a digit) must be Data per the claim, yet
the Rivers loop classifies it as Unrecognized (`line[1]` is a blank) and
drops it. -/
theorem c7_counterexample :
    classifyLakeLine (tl "a1\n") = .data
    ∧ specIsDataLine (tl "a1\n") = false
    ∧ (parseLAKES cfgAllLakes [tl "a1\n"]).output = [tl "a1\n"]
    ∧ classifyRivLine (tl "1 2.3\n") = .unrecognized
    ∧ specIsDataLine (tl "1 2.3\n") = true
    ∧ (parseRIV cfgRivDefault [tl "1 2.3\n"]).output = [] := by
  refine ⟨by decide, by decide, by decide, by decide, by decide, by decide⟩

/-- C7 amended: for a line that is not blank, boundary or comment, the Lakes
loop classifies it as Data iff its first OR second character is a decimal
digit, and the Rivers loop iff its second character is a decimal digit (no
blank-skipping, no sign test — a sign-led data line passes only because its
second character is a digit); every other such line is Unrecognized; in a
neutral loop state a Data line is written verbatim and an Unrecognized line
is dropped. -/
theorem c7_classifier_amended (l : Line)
    (hsp : pyIsSpace l = false) (hgt : headIs l '>' = false)
    (hcm : headIs l '#' = false) :
    (classifyLakeLine l = .data ↔ (digitAt l 0 || digitAt l 1) = true)
    ∧ (classifyRivLine l = .data ↔ digitAt l 1 = true)
    ∧ (classifyLakeLine l = .data ∨ classifyLakeLine l = .unrecognized)
    ∧ (classifyRivLine l = .data ∨ classifyRivLine l = .unrecognized)
    ∧ (∀ (cfg : LakeCfg) (st : LakeState),
        st.headerFound = false → st.skipUntilHeader = false →
        (lakeStep cfg st l).output =
          st.output ++ (if classifyLakeLine l = .data then [l] else []))
    ∧ (∀ (cfg : RivCfg) (st : RivState),
        st.segmentHeaderFound = false → st.skipThisSegment = false →
        st.aboutToCopyFirstSegmentLine = false →
        (rivStep cfg st l).output =
          st.output ++ (if classifyRivLine l = .data then [l] else [])) := by
  refine ⟨?_, ?_, ?_, ?_, ?_, ?_⟩
  · cases hd0 : digitAt l 0 <;> cases hd1 : digitAt l 1 <;>
      simp [classifyLakeLine, hsp, hgt, hcm, hd0, hd1]
  · cases hd1 : digitAt l 1 <;>
      simp [classifyRivLine, hsp, hgt, hcm, hd1]
  · cases hd0 : digitAt l 0 <;> cases hd1 : digitAt l 1 <;>
      simp [classifyLakeLine, hsp, hgt, hcm, hd0, hd1]
  · cases hd1 : digitAt l 1 <;>
      simp [classifyRivLine, hsp, hgt, hcm, hd1]
  · intro cfg st hH hsk
    cases hd0 : digitAt l 0 <;> cases hd1 : digitAt l 1 <;>
      simp [lakeStep, classifyLakeLine, hH, hsk, hsp, hgt, hcm, hd0, hd1]
  · intro cfg st hH hsk hab
    cases hd1 : digitAt l 1 <;>
      simp [rivStep, rivStepChain, rivHeaderPhase, classifyRivLine,
        hH, hsk, hab, hsp, hgt, hcm, hd1]

/-- Witness for C7 amended: the data line `"9.5 1.2\n"` is classified Data
by both loops and written verbatim by the Lakes loop from the initial
state. -/
theorem c7_classifier_amended_witness :
    classifyLakeLine (tl "9.5 1.2\n") = .data
    ∧ (lakeStep cfgAllLakes lakeInit (tl "9.5 1.2\n")).output = [tl "9.5 1.2\n"] := by
  refine ⟨by decide, ?_⟩
  have h := (c7_classifier_amended (tl "9.5 1.2\n") (by decide) (by decide)
    (by decide)).2.2.2.2.1 cfgAllLakes lakeInit rfl rfl
  exact h.trans (by decide)

theorem headIs_hash_not_space (l : Line) (h : headIs l '#' = true) :
    pyIsSpace l = false := by
  rcases l with _ | ⟨c, rest⟩
  · simp [headIs] at h
  · simp only [headIs, List.head?] at h
    rw [decide_eq_true_eq] at h
    subst h
    have hws : ('#' : Char).isWhitespace = false := by decide
    simp [pyIsSpace, hws]

theorem headIs_hash_not_gt (l : Line) (h : headIs l '#' = true) :
    headIs l '>' = false := by
  rcases l with _ | ⟨c, rest⟩
  · simp [headIs] at h
  · simp only [headIs, List.head?] at h
    rw [decide_eq_true_eq] at h
    subst h
    have : ('#' = '>') = False := by simp
    simp [headIs, List.head?, this]

theorem rivHeaderPhase_countLines (cfg : RivCfg) (st : RivState) (l : Line) :
    (rivHeaderPhase cfg st l).countLines = st.countLines + 1 := by
  cases hp : ParseUpstreamCells l <;> simp only [rivHeaderPhase, hp] <;>
    repeat' split <;> try simp

theorem rivStepChain_countLines (cfg : RivCfg) (st2 : RivState) (l : Line) :
    (rivStepChain cfg st2 l).countLines = st2.countLines := by
  simp only [rivStepChain]
  repeat' split <;> try simp

theorem rivStep_countLines (cfg : RivCfg) (st : RivState) (l : Line) :
    (rivStep cfg st l).countLines = st.countLines + 1 := by
  rw [rivStep, rivStepChain_countLines, rivHeaderPhase_countLines]

theorem parseRIVFrom_countLines (cfg : RivCfg) (lines : List Line) :
    ∀ st : RivState,
    (parseRIVFrom cfg st lines).countLines = st.countLines + lines.length := by
  induction lines with
  | nil => intro st; rfl
  | cons l rest ih =>
    intro st
    have hstep : parseRIVFrom cfg st (l :: rest) =
        parseRIVFrom cfg (rivStep cfg st l) rest := rfl
    rw [hstep, ih, rivStep_countLines]
    simp [Nat.add_comm, Nat.add_assoc, Nat.add_left_comm]

/-- C6 counterexample: with the default thresholds (`MIN_UPSTREAM = -1`), a
run over a malformed first segment (attribute line `"# @Dbad\n"`, no `|`)
KEEPS that segment — the zero count passes the limits test — so the whole
input is reproduced, both segments are counted copied, and exactly one
warning is printed; the claim's "exactly that one segment is dropped" is
false. -/
theorem c6_counterexample :
    (parseRIV cfgRivDefault linesRivMalformed).output = linesRivMalformed
    ∧ (parseRIV cfgRivDefault linesRivMalformed).countSegments = 2
    ∧ (parseRIV cfgRivDefault linesRivMalformed).countSegmentsCopied = 2
    ∧ (parseRIV cfgRivDefault linesRivMalformed).parseWarnings = 1 := by
  refine ⟨by decide, by decide, by decide, by decide⟩

/-- C6 amended: a malformed attribute line after a segment boundary sets the
count to 0 and never touches the upstream extrema; a warning is printed iff
the run is not silent; the segment is dropped iff 0 fails the configured
limits test (with `ThresholdLow ≥ 1` it is dropped, with the default
`MIN_UPSTREAM = -1` it is kept); `ParseRIV` keeps no error counter; and the
run never aborts — every line of any input is consumed. -/
theorem c6_malformed_attribute (cfg : RivCfg) (st : RivState) (line : Line)
    (hH : st.segmentHeaderFound = true)
    (hbad : ParseUpstreamCells line = none)
    (hcm : headIs line '#' = true) :
    ((rivStep cfg st line).upstreamCells = 0
     ∧ (rivStep cfg st line).countSegments = st.countSegments + 1
     ∧ (rivStep cfg st line).parseWarnings =
        st.parseWarnings + (if cfg.runSilent then 0 else 1)
     ∧ (rivStep cfg st line).largestUpstreamCells = st.largestUpstreamCells
     ∧ (rivStep cfg st line).smallestUpstreamCells = st.smallestUpstreamCells
     ∧ (rivStep cfg st line).output = st.output
     ∧ (UpstreamCellsWithinLimits cfg 0 = true →
         (rivStep cfg st line).skipThisSegment = false
         ∧ (rivStep cfg st line).aboutToCopyFirstSegmentLine = true
         ∧ (rivStep cfg st line).countSegmentsCopied = st.countSegmentsCopied + 1
         ∧ (rivStep cfg st line).savedCommentLine = line)
     ∧ (UpstreamCellsWithinLimits cfg 0 = false →
         (rivStep cfg st line).skipThisSegment = true
         ∧ (rivStep cfg st line).countSegmentsCopied = st.countSegmentsCopied))
    ∧ (∀ lines : List Line,
        (parseRIVFrom cfg st lines).countLines = st.countLines + lines.length) := by
  constructor
  · have hspf := headIs_hash_not_space line hcm
    have hgtf := headIs_hash_not_gt line hcm
    cases hlim : UpstreamCellsWithinLimits cfg 0 <;>
      simp [rivStep, rivStepChain, rivHeaderPhase, hH, hbad, hlim, hspf,
        hgtf, hcm]
  · exact fun lines => parseRIVFrom_countLines cfg lines st

/-- Witness for C6 amended: after a boundary, the malformed line
`"# @Dbad\n"` under the default limits keeps the segment (copied count
becomes 1, the segment is not skipped) and prints one warning. -/
theorem c6_malformed_attribute_witness :
    (rivStep cfgRivDefault (rivStep cfgRivDefault rivInit gtLine)
        (tl "# @Dbad\n")).countSegmentsCopied = 1
    ∧ (rivStep cfgRivDefault (rivStep cfgRivDefault rivInit gtLine)
        (tl "# @Dbad\n")).skipThisSegment = false
    ∧ (rivStep cfgRivDefault (rivStep cfgRivDefault rivInit gtLine)
        (tl "# @Dbad\n")).parseWarnings = 1 := by
  have h := (c6_malformed_attribute cfgRivDefault
    (rivStep cfgRivDefault rivInit gtLine) (tl "# @Dbad\n")
    (by decide) (by rfl) (by decide)).1
  refine ⟨(h.2.2.2.2.2.2.1 (by decide)).2.2.1.trans (by decide),
    (h.2.2.2.2.2.2.1 (by decide)).1,
    h.2.2.1.trans (by decide)⟩

theorem parseLAKESFrom_blocks (cfg : LakeCfg) (blocks : List LakeBlock) :
    ∀ st : LakeState, st.headerFound = false → blocks.all WFLakeB = true →
    (parseLAKESFrom cfg st (blocks.flatMap renderLake)).countLines =
      st.countLines + (blocks.flatMap renderLake).length
    ∧ (parseLAKESFrom cfg st (blocks.flatMap renderLake)).countLakes =
      st.countLakes + blocks.length
    ∧ (parseLAKESFrom cfg st (blocks.flatMap renderLake)).countTotalIslands =
      st.countTotalIslands + (blocks.map (fun b => b.islands.length)).sum
    ∧ (parseLAKESFrom cfg st (blocks.flatMap renderLake)).countLakesCopied =
      st.countLakesCopied +
        (blocks.map (fun b => if cfg.lakeMatches b.hdr then 1 else 0)).sum
    ∧ (parseLAKESFrom cfg st (blocks.flatMap renderLake)).countTotalIslandsCopied =
      st.countTotalIslandsCopied +
        (blocks.map (fun b =>
          if cfg.lakeMatches b.hdr && !cfg.skipIslands then b.islands.length
          else 0)).sum
    ∧ (parseLAKESFrom cfg st (blocks.flatMap renderLake)).mostIslandsInLake =
      foldMost st.mostIslandsInLake st.countIslandsThisLake
        (blocks.map (fun b => b.islands.length))
    ∧ (parseLAKESFrom cfg st (blocks.flatMap renderLake)).countIslandsThisLake =
      lastTally st.countIslandsThisLake (blocks.map (fun b => b.islands.length))
    ∧ (parseLAKESFrom cfg st (blocks.flatMap renderLake)).smallestLake =
      st.smallestLake
    ∧ (parseLAKESFrom cfg st (blocks.flatMap renderLake)).largestLake =
      st.largestLake
    ∧ (parseLAKESFrom cfg st (blocks.flatMap renderLake)).smallestLakeCopied =
      st.smallestLakeCopied
    ∧ (parseLAKESFrom cfg st (blocks.flatMap renderLake)).largestLakeCopied =
      st.largestLakeCopied
    ∧ (parseLAKESFrom cfg st (blocks.flatMap renderLake)).headerFound = false := by
  induction blocks with
  | nil =>
    intro st hH _
    simp [parseLAKESFrom, foldMost, lastTally, hH]
  | cons b bs ih =>
    intro st hH hall
    simp only [List.all_cons, Bool.and_eq_true] at hall
    have hmid : (parseLAKESFrom cfg st (renderLake b)).headerFound = false := by
      rw [parseLAKESFrom_lake cfg b st hH hall.1]
    obtain ⟨hL, hK, hTI, hKC, hTIC, hM, hCIT, hS1, hS2, hS3, hS4, hHF⟩ :=
      ih (parseLAKESFrom cfg st (renderLake b)) hmid hall.2
    rw [List.flatMap_cons, parseLAKESFrom_append]
    refine ⟨?_, ?_, ?_, ?_, ?_, ?_, ?_, ?_, ?_, ?_, ?_, ?_⟩ <;>
      simp only [hL, hK, hTI, hKC, hTIC, hM, hCIT, hS1, hS2, hS3, hS4, hHF] <;>
      rw [parseLAKESFrom_lake cfg b st hH hall.1] <;>
      (try simp only [foldMost, lastTally, List.map_cons, List.sum_cons,
        List.length_append]) <;>
      (try rfl) <;> (try simp) <;> (try omega)

theorem foldMost_eq (l : List Nat) :
    ∀ m c : Nat, foldMost m c l = List.foldl max m ((c :: l).dropLast) := by
  induction l with
  | nil => intro m c; rfl
  | cons i rest ih =>
    intro m c
    rw [foldMost, ih (max m c) i, List.dropLast_cons₂, List.foldl_cons]

theorem foldMost_zero (l : List Nat) :
    foldMost 0 0 l = List.foldl max 0 l.dropLast := by
  cases l with
  | nil => rfl
  | cons i rest =>
    rw [foldMost_eq, List.dropLast_cons₂, List.foldl_cons]
    simp

/-- C10 counterexample: a run over a single accepted lake with two islands
reports `MostIslandsInLake = 0` (the final feature's tally is never folded
in, though the claim demands it) and the size extrema keep their sentinel
initial values 24709000 / 0 — they are never updated, so they are not the
smallest/largest feature sizes seen or kept. -/
theorem c10_counterexample :
    (parseLAKES cfgAllLakes (renderLake lbTwoIslands)).countLakes = 1
    ∧ (parseLAKES cfgAllLakes (renderLake lbTwoIslands)).countTotalIslands = 2
    ∧ (parseLAKES cfgAllLakes (renderLake lbTwoIslands)).mostIslandsInLake = 0
    ∧ (parseLAKES cfgAllLakes (renderLake lbTwoIslands)).smallestLake = 24709000
    ∧ (parseLAKES cfgAllLakes (renderLake lbTwoIslands)).largestLake = 0
    ∧ (parseLAKES cfgAllLakes (renderLake lbTwoIslands)).smallestLakeCopied =
        24709000
    ∧ (parseLAKES cfgAllLakes (renderLake lbTwoIslands)).largestLakeCopied = 0 := by
  refine ⟨by decide, by decide, by decide, by decide, by decide, by decide,
    by decide⟩

/-- C10 amended: over any input made of top-of-file content lines followed
by well-formed lake features, the final statistics report the exact total
line count, lakes seen/kept and islands seen/kept; `MostIslandsInLake` is
the maximum island count over all lakes EXCEPT the final one (whose tally is
never folded in); and the four size extrema are never updated, remaining
24709000 / 0 / 24709000 / 0. -/
theorem c10_statistics_amended (cfg : LakeCfg) (top : List Line)
    (blocks : List LakeBlock) (htop : top.all ContentLineB = true)
    (hwf : blocks.all WFLakeB = true) :
    (parseLAKES cfg (top ++ blocks.flatMap renderLake)).countLines =
      (top ++ blocks.flatMap renderLake).length
    ∧ (parseLAKES cfg (top ++ blocks.flatMap renderLake)).countLakes =
      blocks.length
    ∧ (parseLAKES cfg (top ++ blocks.flatMap renderLake)).countTotalIslands =
      (blocks.map (fun b => b.islands.length)).sum
    ∧ (parseLAKES cfg (top ++ blocks.flatMap renderLake)).countLakesCopied =
      (blocks.map (fun b => if cfg.lakeMatches b.hdr then 1 else 0)).sum
    ∧ (parseLAKES cfg (top ++ blocks.flatMap renderLake)).countTotalIslandsCopied =
      (blocks.map (fun b =>
        if cfg.lakeMatches b.hdr && !cfg.skipIslands then b.islands.length
        else 0)).sum
    ∧ (parseLAKES cfg (top ++ blocks.flatMap renderLake)).mostIslandsInLake =
      List.foldl max 0 ((blocks.map (fun b => b.islands.length)).dropLast)
    ∧ (parseLAKES cfg (top ++ blocks.flatMap renderLake)).smallestLake = 24709000
    ∧ (parseLAKES cfg (top ++ blocks.flatMap renderLake)).largestLake = 0
    ∧ (parseLAKES cfg (top ++ blocks.flatMap renderLake)).smallestLakeCopied =
      24709000
    ∧ (parseLAKES cfg (top ++ blocks.flatMap renderLake)).largestLakeCopied =
      0 := by
  unfold parseLAKES
  rw [parseLAKESFrom_append, parseLAKESFrom_body cfg top lakeInit rfl htop]
  obtain ⟨hL, hK, hTI, hKC, hTIC, hM, hCIT, hS1, hS2, hS3, hS4, hHF⟩ :=
    parseLAKESFrom_blocks cfg blocks
      { lakeInit with countLines := lakeInit.countLines + top.length,
                      output := lakeInit.output ++
                        (if lakeInit.skipUntilHeader then [] else top) }
      (by simp [lakeInit]) hwf
  refine ⟨?_, ?_, ?_, ?_, ?_, ?_, ?_, ?_, ?_, ?_⟩ <;>
    simp only [hL, hK, hTI, hKC, hTIC, hM, hCIT, hS1, hS2, hS3, hS4] <;>
    simp [lakeInit, foldMost_zero, List.length_append]

/-- Witness for C10 amended: a top comment followed by the one-island lake
and the two-island lake gives 2 lakes, 3 islands, and a most-islands value
of 1 — only the non-final lake's tally is folded in. -/
theorem c10_statistics_amended_witness :
    (parseLAKES cfgAllLakes
      ([tl "# header\n"] ++
        [lbOneIsland, lbTwoIslands].flatMap renderLake)).countLakes = 2
    ∧ (parseLAKES cfgAllLakes
      ([tl "# header\n"] ++
        [lbOneIsland, lbTwoIslands].flatMap renderLake)).countTotalIslands = 3
    ∧ (parseLAKES cfgAllLakes
      ([tl "# header\n"] ++
        [lbOneIsland, lbTwoIslands].flatMap renderLake)).mostIslandsInLake = 1
    ∧ (parseLAKES cfgAllLakes
      ([tl "# header\n"] ++
        [lbOneIsland, lbTwoIslands].flatMap renderLake)).smallestLake =
      24709000 := by
  have h := c10_statistics_amended cfgAllLakes [tl "# header\n"]
    [lbOneIsland, lbTwoIslands] (by decide) (by decide)
  exact ⟨h.2.1.trans (by decide), h.2.2.1.trans (by decide),
    h.2.2.2.2.2.1.trans (by decide), h.2.2.2.2.2.2.1⟩
